import Mathlib

/-!
Verification of the tracking repository's session engine.

This file shallowly embeds the parts of the repository that carry the
engine's behaviour and proves the specified properties about them:

* `Route` (src/models/Route.js): the route aggregate; `addPoint`,
  `getLastPoint`, `getPointCount`.
* `UIController` (src/ui/UIController.js): the tracking state machine
  (start / pause / resume / stop handlers, the elapsed-time display
  computation, the location-update handler, pending-route save /
  restore / recovery, waypoint creation).
* `LegacyRoute` (route.js): the legacy ingestion gate inside
  `startTracking` (exact-coordinate dedup plus a 10 s minimum interval).
* `EventBus` (src/core/EventBus.js): topic subscription and emission
  with per-callback error containment.
* `DistanceCalculator`: haversine distance and total path length over
  the reals (the JavaScript floats are modelled by `ℝ`).

Machine time (`Date.now()`) is passed explicitly as an `Int` argument
(milliseconds); coordinates in the executable state machines are `ℚ`
(JavaScript number equality maps to `ℚ` equality), while the geometric
functions use `ℝ`.
-/

/-- A GPS fix as delivered by the position source: lat/lng plus the
optional accuracy and timestamp fields the source may attach.
`UIController.#onLocationUpdate` reads only `lat`, `lng` (and
`accuracy` for the GPS indicator, a pure UI effect). -/
structure PositionFix where
  lat : ℚ
  lng : ℚ
  accuracy : Option ℚ := none
  timestamp : Option Int := none
deriving DecidableEq

/-- A point accepted into a route (src/models/Route.js `addPoint`
builds `{lat, lng, timestamp: Date.now()}`). -/
structure RoutePoint where
  lat : ℚ
  lng : ℚ
  timestamp : Int
deriving DecidableEq

/-- A named waypoint attached to a route. Matches the spec's data
model: `{id, lat, lng, name, timestamp}`. -/
structure Waypoint where
  id : String
  lat : ℚ
  lng : ℚ
  name : String
  timestamp : Int
deriving DecidableEq

/-- JavaScript `String.prototype.trim()`: strips whitespace from both
ends (written on the character list so it evaluates by `decide`). -/
def jsTrim (s : String) : String :=
  String.mk (((s.data.dropWhile Char.isWhitespace).reverse.dropWhile
    Char.isWhitespace).reverse)

/-- The name normalization of the `Waypoint` constructor
(models/Waypoint.js): `(name || "").slice(0, 50).trim()` — the first
50 characters, then trimmed. -/
def normalizeWaypointName (name : String) : String :=
  jsTrim (String.mk (name.data.take 50))

/-- The `Route` model (src/models/Route.js) restricted to the fields
the engine claims touch. `waypoints` and `startTime` are referenced by
the UIController but the Route class version defining them is not in
the repository snapshot; they are carried here as plain fields per the
spec's data model. The `id`/`createdAt` metadata fields are not used
by any claim and are omitted. -/
structure Route where
  name : String
  startTime : Int
  points : List RoutePoint
  waypoints : List Waypoint
deriving DecidableEq

namespace Route

/-- Source `addPoint(lat, lng)`: pushes `{lat, lng, timestamp: Date.now()}`
onto `points`. The wall clock is the explicit `now` argument; any
timestamp on the incoming fix is never consulted. The source also
returns the created point; callers in scope ignore it. -/
def addPoint (r : Route) (lat lng : ℚ) (now : Int) : Route :=
  { r with points := r.points ++ [{ lat := lat, lng := lng, timestamp := now }] }

/-- Source `getLastPoint()`: the last element of `points`, or null. -/
def getLastPoint (r : Route) : Option RoutePoint :=
  r.points.getLast?

/-- Source `getPointCount()`: the length of `points`. -/
def getPointCount (r : Route) : Nat :=
  r.points.length

/-- Modelled from the spec: `Route.addWaypoint` is called by
`UIController.#saveWaypoint` and by the pending-route restore loop but
the Route method itself is missing from the repository snapshot; only
the `Waypoint` class it constructs is present (models/Waypoint.js).
Per that constructor the waypoint carries the given coordinates, the
name normalized to its first 50 characters and trimmed, a fresh
unique id and the current timestamp; per the spec the waypoint is
appended to the route and returned. -/
def addWaypoint (r : Route) (lat lng : ℚ) (name : String) (now : Int)
    (freshId : String) : Route × Waypoint :=
  let w : Waypoint := { id := freshId, lat := lat, lng := lng,
                        name := normalizeWaypointName name, timestamp := now }
  ({ r with waypoints := r.waypoints ++ [w] }, w)

end Route

/-- The tracking-relevant private state of `UIController`
(src/ui/UIController.js): the current route (null outside a
run-or-loaded route), the `#isTrackingActive` / `#isPaused` flags, the
start-of-current-active-segment wall-clock time and the accumulated
elapsed milliseconds of completed segments. -/
structure UIState where
  currentRoute : Option Route
  isTrackingActive : Bool
  isPaused : Bool
  trackingStartTime : Int
  pausedTimeAccumulated : Int
  simulationMode : Bool := false
deriving DecidableEq

namespace UIController

/-- Source `#onTrackingStarted()`: marks the session active and
unpaused, starts a fresh active segment at `now` and zeroes the
accumulated time. -/
def onTrackingStarted (s : UIState) (now : Int) : UIState :=
  { s with isTrackingActive := true, isPaused := false,
           trackingStartTime := now, pausedTimeAccumulated := 0 }

/-- Source `#onTrackingStopped()`: clears the active and paused flags.
It does not clear `#currentRoute` (the route stays available for
saving/exporting). -/
def onTrackingStopped (s : UIState) : UIState :=
  { s with isTrackingActive := false, isPaused := false }

/-- Source `pauseTracking()`: no-op unless tracking and not paused;
otherwise folds the current active segment into
`#pausedTimeAccumulated` and sets `#isPaused`. -/
def pauseTracking (s : UIState) (now : Int) : UIState :=
  if !s.isTrackingActive || s.isPaused then s
  else
    { s with isPaused := true,
             pausedTimeAccumulated := s.pausedTimeAccumulated + (now - s.trackingStartTime) }

/-- Source `resumeTracking()`: no-op unless tracking and paused;
otherwise clears `#isPaused` and restarts the active segment at `now`.
In simulation mode it then restarts the simulator (no further state
effect here); in GPS mode it calls `geoService.startWatching`, which
synchronously re-emits `tracking:started` (the pause had cleared the
service's watching flag via `stopWatching({emitEvent: false})`, so the
early-return guard does not fire), and the subscribed
`#onTrackingStarted` handler re-runs — zeroing
`#pausedTimeAccumulated`. -/
def resumeTracking (s : UIState) (now : Int) : UIState :=
  if !s.isTrackingActive || !s.isPaused then s
  else
    let s1 := { s with isPaused := false, trackingStartTime := now }
    if s.simulationMode then s1
    else onTrackingStarted s1 now

/-- Source `#updateElapsedTime()` elapsed computation: the accumulated
milliseconds, plus `now - #trackingStartTime` when not paused. -/
def updateElapsedTime (s : UIState) (now : Int) : Int :=
  if !s.isPaused then s.pausedTimeAccumulated + (now - s.trackingStartTime)
  else s.pausedTimeAccumulated

/-- Source `#onLocationUpdate(pos)`: returns immediately when
`#currentRoute` is null, otherwise appends the fix's lat/lng to the
route (map-marker and event side effects are outside the model). Note
the only guard is route existence: neither `#isTrackingActive` nor
`#isPaused` is consulted. -/
def onLocationUpdate (s : UIState) (pos : PositionFix) (now : Int) : UIState :=
  match s.currentRoute with
  | none => s
  | some r => { s with currentRoute := some (r.addPoint pos.lat pos.lng now) }

/-- Source `clearCurrentRoute()`: drops the current route (marker and
map cleanup are outside the model). -/
def clearCurrentRoute (s : UIState) : UIState :=
  { s with currentRoute := none }

end UIController

/-- The pending-route snapshot persisted by
`UIController.#savePendingRoute` under the `tracking_pending_route`
localStorage key. -/
structure PendingData where
  name : String
  points : List RoutePoint
  waypoints : List Waypoint
  startTime : Int
  elapsedTime : Int
  savedAt : Int
deriving DecidableEq

namespace UIController

/-- Source `#savePendingRoute()`: null route means nothing is saved;
otherwise serializes name, points, waypoints and startTime together
with the elapsed milliseconds (the accumulated time, plus the running
segment when not paused and a segment has started) and `savedAt = now`. -/
def savePendingRoute (s : UIState) (now : Int) : Option PendingData :=
  match s.currentRoute with
  | none => none
  | some r =>
    some { name := r.name
           points := r.points
           waypoints := r.waypoints
           startTime := r.startTime
           elapsedTime :=
             s.pausedTimeAccumulated +
               (if s.isPaused = false ∧ 0 < s.trackingStartTime
                then now - s.trackingStartTime else 0)
           savedAt := now }

/-- The point-replay loop of `#restoreFromPendingRoute`: each saved
point is re-inserted through `addPoint(point.lat, point.lng)`, so each
gets the restoration wall-clock time as its timestamp. -/
def replayPoints (r : Route) (ps : List RoutePoint) (now : Int) : Route :=
  ps.foldl (fun acc p => acc.addPoint p.lat p.lng now) r

/-- The waypoint-replay loop of `#restoreFromPendingRoute`: each saved
waypoint is re-created through `addWaypoint(wp.lat, wp.lng, wp.name)`;
`ids` supplies the fresh ids the route model generates. -/
def replayWaypoints : Route → List Waypoint → Int → (Nat → String) → Route
  | r, [], _, _ => r
  | r, w :: ws, now, ids =>
    replayWaypoints (r.addWaypoint w.lat w.lng w.name now (ids 0)).1 ws now
      (fun n => ids (n + 1))

/-- Source `#restoreFromPendingRoute(pendingData)`: builds a fresh
route with the saved name and startTime, replays points and waypoints,
sets `#pausedTimeAccumulated` to the saved elapsed time, starts a new
active segment at `now` and re-enters the active, unpaused state —
and then starts geolocation and emits `tracking:started` (both
`startWatching`'s internal emit and the function's own closing emit),
so the subscribed `#onTrackingStarted` handler runs and zeroes the
just-restored `#pausedTimeAccumulated`. -/
def restoreFromPendingRoute (pd : PendingData) (s : UIState) (now : Int)
    (ids : Nat → String) : UIState :=
  let r0 : Route := { name := pd.name, startTime := pd.startTime, points := [], waypoints := [] }
  let r1 := replayPoints r0 pd.points now
  let r2 := replayWaypoints r1 pd.waypoints now ids
  onTrackingStarted
    { s with currentRoute := some r2
             pausedTimeAccumulated := pd.elapsedTime
             trackingStartTime := now
             isTrackingActive := true
             isPaused := false } now

/-- Maximum pending-snapshot age accepted by the recovery path:
`24 * 60 * 60 * 1000` milliseconds. -/
def maxPendingAge : Int := 24 * 60 * 60 * 1000

/-- Source `#checkForPendingRoute()` on the resume path (the
`resume=true` URL flag is assumed): when the loaded snapshot exists
and has at least one point, it is restored and the slot cleared if its
age is under 24 h, or only cleared if older; a snapshot without points
is left untouched. Returns the resulting state and the contents of the
storage slot afterwards. -/
def checkForPendingRoute (slot : Option PendingData) (s : UIState) (now : Int)
    (ids : Nat → String) : UIState × Option PendingData :=
  match slot with
  | none => (s, none)
  | some pd =>
    if 0 < pd.points.length then
      if now - pd.savedAt < maxPendingAge then
        (restoreFromPendingRoute pd s now ids, none)
      else
        (s, none)
    else
      (s, some pd)

/-- Outcome of `#saveWaypoint` (the UI notification issued). -/
inductive WaypointOutcome where
  | missingName
  | noActiveRoute
  | noPositionAvailable
  | saved (w : Waypoint)
deriving DecidableEq

/-- Source `#saveWaypoint()`: trims the entered name and rejects an
empty one; rejects when no route is active; rejects with the
no-position-available notification when the route has no recorded
point; otherwise creates a waypoint at the last recorded point's
coordinates. -/
def saveWaypoint (s : UIState) (rawName : String) (now : Int)
    (freshId : String) : UIState × WaypointOutcome :=
  let name := jsTrim rawName
  if name = "" then (s, .missingName)
  else
    match s.currentRoute with
    | none => (s, .noActiveRoute)
    | some r =>
      match r.getLastPoint with
      | none => (s, .noPositionAvailable)
      | some lp =>
        let rw := r.addWaypoint lp.lat lp.lng name now freshId
        ({ s with currentRoute := some rw.1 }, .saved rw.2)

end UIController

namespace LegacyRoute

/-- A legacy path entry: the legacy `route.js` stores bare
`{lat, lng}` pairs. -/
structure LatLng where
  lat : ℚ
  lng : ℚ
deriving DecidableEq

/-- Source constant `TIME_MIN_DIFERENCE = 10000` (ms). -/
def TIME_MIN_DIFERENCE : Int := 10000

/-- The legacy tracker's mutable state: the accepted path, the time of
the last accepted point, and the running distance accumulator kept by
`updateDistance`. -/
structure TrackState where
  path : List LatLng
  lastAddedPointTime : Int
  distance : ℝ

/-- Source `calculateDistance(lat1, lon1, lat2, lon2)` of the legacy
`route.js`: the spherical-law-of-cosines formula returning meters. -/
noncomputable def calculateDistance (lat1 lon1 lat2 lon2 : ℝ) : ℝ :=
  let radlat1 := Real.pi * lat1 / 180
  let radlat2 := Real.pi * lat2 / 180
  let theta := lon1 - lon2
  let radtheta := Real.pi * theta / 180
  let d0 := Real.sin radlat1 * Real.sin radlat2 +
    Real.cos radlat1 * Real.cos radlat2 * Real.cos radtheta
  let d1 := Real.arccos d0
  let d2 := d1 * 180 / Real.pi
  let d3 := d2 * 60 * 1.1515
  d3 * 1.609344 * 1000

/-- Source `updateDistance(position)` as called right after a push:
when the path now holds more than one point, adds the distance from
the previous last point to the new one. -/
noncomputable def updateDistance (st : TrackState) (pos : LatLng) : ℝ :=
  match st.path.getLast? with
  | some prev => st.distance + calculateDistance prev.lat prev.lng pos.lat pos.lng
  | none => st.distance

/-- Source watch callback inside the legacy `startTracking()`: the fix
is appended iff no stored point has identical lat/lng and at least
`TIME_MIN_DIFERENCE` ms passed since the last accepted point; on
acceptance `lastAddedPointTime` becomes the current time and the
distance accumulator grows. -/
noncomputable def onWatchPosition (st : TrackState) (fix : LatLng) (now : Int) :
    TrackState :=
  if (¬ ∃ p ∈ st.path, p.lat = fix.lat ∧ p.lng = fix.lng) ∧
      now - st.lastAddedPointTime ≥ TIME_MIN_DIFERENCE then
    { path := st.path ++ [fix]
      lastAddedPointTime := now
      distance := updateDistance st fix }
  else
    st

end LegacyRoute

namespace EventBus

/-- A subscriber callback: takes the published payload and either
returns normally (producing an observable output) or throws. -/
def Handler (α β : Type) := α → Except String β

/-- The subscription table (`EventBus.events`): topic name to the list
of callbacks in subscription order. -/
def EventMap (α β : Type) := String → List (Handler α β)

/-- Source `on(event, callback)` (named `subscribe` here since `on` is
a reserved word): appends the callback to the topic's list (creating
it when absent). -/
def subscribe {α β : Type} (m : EventMap α β) (event : String) (cb : Handler α β) :
    EventMap α β :=
  fun e => if e = event then m e ++ [cb] else m e

/-- The `forEach` loop of `emit`: runs every callback in order inside
a try/catch; normal results are collected in order and thrown errors
are logged (collected separately), never re-thrown. -/
def runHandlers {α β : Type} : List (Handler α β) → α → List β × List String
  | [], _ => ([], [])
  | h :: rest, p =>
    let tail := runHandlers rest p
    match h p with
    | Except.ok b => (b :: tail.1, tail.2)
    | Except.error e => (tail.1, e :: tail.2)

/-- Source `emit(event, data)`: invokes the topic's current callbacks
through `runHandlers`. Its result type carries no exception: nothing a
callback throws reaches the publisher. -/
def emit {α β : Type} (m : EventMap α β) (event : String) (data : α) :
    List β × List String :=
  runHandlers (m event) data

end EventBus

namespace DistanceCalculator

/-- A position as consumed by `totalDistance` (lat/lng in decimal
degrees); the JavaScript floats are modelled by `ℝ`. -/
structure Position where
  lat : ℝ
  lng : ℝ

/-- Source constant `EARTH_RADIUS_KM = 6371`. -/
def EARTH_RADIUS_KM : ℝ := 6371

/-- Degrees to radians, the `toRad` helper inside `haversine`. -/
noncomputable def toRad (deg : ℝ) : ℝ := deg * Real.pi / 180

/-- JavaScript `Math.atan2(y, x)`. -/
noncomputable def atan2 (y x : ℝ) : ℝ :=
  if 0 < x then Real.arctan (y / x)
  else if x < 0 then
    (if 0 ≤ y then Real.arctan (y / x) + Real.pi
     else Real.arctan (y / x) - Real.pi)
  else
    (if 0 < y then Real.pi / 2
     else if y < 0 then -(Real.pi / 2)
     else 0)

/-- The intermediate `a` of the haversine formula:
`sin²(dLat/2) + cos(lat1)·cos(lat2)·sin²(dLng/2)`. -/
noncomputable def havTerm (lat1 lng1 lat2 lng2 : ℝ) : ℝ :=
  Real.sin (toRad (lat2 - lat1) / 2) ^ 2 +
    Real.cos (toRad lat1) * Real.cos (toRad lat2) *
      Real.sin (toRad (lng2 - lng1) / 2) ^ 2

/-- Source `haversine(lat1, lng1, lat2, lng2)`: distance in km between
two coordinates, `EARTH_RADIUS_KM * 2 * atan2(√a, √(1-a))`. -/
noncomputable def haversine (lat1 lng1 lat2 lng2 : ℝ) : ℝ :=
  let a := havTerm lat1 lng1 lat2 lng2
  let c := 2 * atan2 (Real.sqrt a) (Real.sqrt (1 - a))
  EARTH_RADIUS_KM * c

/-- The `reduce` inside `totalDistance`: index 0 contributes nothing,
every later index adds the haversine distance from its predecessor. -/
noncomputable def pairwiseSum : List Position → ℝ
  | [] => 0
  | [_] => 0
  | a :: b :: rest =>
    haversine a.lat a.lng b.lat b.lng + pairwiseSum (b :: rest)

/-- Source `totalDistance(points)`: 0 for fewer than two points,
otherwise the reduce summing consecutive haversine distances. -/
noncomputable def totalDistance (points : List Position) : ℝ :=
  if points.length < 2 then 0 else pairwiseSum points

/-- Stated from the spec's words, for comparison with the source
function: the sum of `haversine` over the list of consecutive pairs. -/
noncomputable def consecutivePairSum (points : List Position) : ℝ :=
  ((points.zip points.tail).map
    (fun pr => haversine pr.1.lat pr.1.lng pr.2.lat pr.2.lng)).sum

end DistanceCalculator

/-- A fresh GPS-mode (non-simulation) controller state. -/
def c1Gps : UIState :=
  { currentRoute := none, isTrackingActive := false, isPaused := false,
    trackingStartTime := 0, pausedTimeAccumulated := 0, simulationMode := false }

/-- C1 (code bug): the elapsed-time display obeys the
accumulate-while-active / freeze-while-paused formula, but the program
does not deliver the claimed pause/resume accumulation in GPS mode:
`resumeTracking` calls `geoService.startWatching`, which synchronously
re-emits `tracking:started`, and the subscribed `#onTrackingStarted`
handler zeroes `#pausedTimeAccumulated`. Evaluated on the claimed
scenario — start at t = 0, pause at t = 1000 (T1 = 1000 ms), resume at
t = 5000, second active segment of T2 = 2000 ms — the elapsed time is
1000 throughout the pause but 0 immediately after the resume (the
claim expects T1 = 1000) and 2000 at t = 7000 (the claim expects
T1 + T2 = 3000). -/
theorem c1_elapsed_reset_on_resume :
    UIController.updateElapsedTime
      (UIController.pauseTracking
        (UIController.onTrackingStarted c1Gps 0) 1000) 5000 = 1000 ∧
    UIController.updateElapsedTime
      (UIController.resumeTracking
        (UIController.pauseTracking
          (UIController.onTrackingStarted c1Gps 0) 1000) 5000) 5000 = 0 ∧
    UIController.updateElapsedTime
      (UIController.resumeTracking
        (UIController.pauseTracking
          (UIController.onTrackingStarted c1Gps 0) 1000) 5000) 7000 = 2000 := by
  decide

/-- A stopped session that still holds its (one-point) route, as left
behind by `#onTrackingStopped`: the route is kept for saving and
exporting. -/
def sampleStoppedState : UIState :=
  UIController.onTrackingStopped
    { currentRoute := some
        { name := "r", startTime := 0,
          points := [{ lat := 0, lng := 0, timestamp := 0 }], waypoints := [] },
      isTrackingActive := true, isPaused := false,
      trackingStartTime := 0, pausedTimeAccumulated := 0 }

/-- C2 counterexample: in the stopped state above, a stray late fix is
not a no-op — `#onLocationUpdate` only checks that a current route
exists, so the point count of the stopped session grows from 1 to 2. -/
theorem c2_stopped_ingestion_counterexample :
    sampleStoppedState.isTrackingActive = false ∧
    sampleStoppedState.currentRoute.map Route.getPointCount = some 1 ∧
    (UIController.onLocationUpdate sampleStoppedState
        { lat := 1, lng := 1 } 99999).currentRoute.map Route.getPointCount =
      some 2 := by
  decide

/-- C2 amended: a late fix is a no-op exactly when no current route
exists (after `clearCurrentRoute`, or before any route was created);
whenever a route is present — including after stopping — the handler
appends the fix to it regardless of the tracking flags. -/
theorem c2_stopped_ingestion_amended :
    (∀ (s : UIState) (pos : PositionFix) (now : Int), s.currentRoute = none →
      UIController.onLocationUpdate s pos now = s) ∧
    (∀ (s : UIState) (pos : PositionFix) (now : Int) (r : Route),
      s.currentRoute = some r →
      (UIController.onLocationUpdate s pos now).currentRoute =
        some (r.addPoint pos.lat pos.lng now)) ∧
    (∀ (s : UIState) (pos : PositionFix) (now : Int),
      UIController.onLocationUpdate (UIController.clearCurrentRoute s) pos now =
        UIController.clearCurrentRoute s) := by
  refine ⟨fun s pos now h => ?_, fun s pos now r h => ?_, fun s pos now => ?_⟩ <;>
    simp [UIController.onLocationUpdate, UIController.clearCurrentRoute, *]

/-- Witness for C2 amended: with no current route, a fix leaves the
state untouched. -/
theorem c2_stopped_ingestion_amended_witness :
    UIController.onLocationUpdate
      { currentRoute := none, isTrackingActive := false, isPaused := false,
        trackingStartTime := 0, pausedTimeAccumulated := 0 }
      { lat := 3, lng := 4 } 77 =
      { currentRoute := none, isTrackingActive := false, isPaused := false,
        trackingStartTime := 0, pausedTimeAccumulated := 0 } :=
  c2_stopped_ingestion_amended.1
    { currentRoute := none, isTrackingActive := false, isPaused := false,
      trackingStartTime := 0, pausedTimeAccumulated := 0 }
    { lat := 3, lng := 4 } 77 rfl

/-- Replaying saved points appends re-stamped copies: every replayed
point keeps its coordinates but gets the replay time as timestamp; no
other route field changes. -/
theorem replayPoints_eq (ps : List RoutePoint) (r : Route) (now : Int) :
    UIController.replayPoints r ps now =
      { r with points := r.points ++
          ps.map (fun p => { lat := p.lat, lng := p.lng, timestamp := now }) } := by
  induction ps generalizing r with
  | nil => simp [UIController.replayPoints]
  | cons p ps ih =>
    show UIController.replayPoints (r.addPoint p.lat p.lng now) ps now = _
    rw [ih]
    simp [Route.addPoint]

/-- Replaying saved waypoints preserves their coordinates in order,
re-normalizes each name through the `Waypoint` constructor, and leaves
the points and name of the route alone. -/
theorem replayWaypoints_spec (ws : List Waypoint) (r : Route) (now : Int)
    (ids : Nat → String) :
    (UIController.replayWaypoints r ws now ids).waypoints.map
        (fun w => (w.lat, w.lng, w.name)) =
      r.waypoints.map (fun w => (w.lat, w.lng, w.name)) ++
        ws.map (fun w => (w.lat, w.lng, normalizeWaypointName w.name)) ∧
    (UIController.replayWaypoints r ws now ids).points = r.points ∧
    (UIController.replayWaypoints r ws now ids).name = r.name := by
  induction ws generalizing r ids with
  | nil => simp [UIController.replayWaypoints]
  | cons w ws ih =>
    rcases ih ((r.addWaypoint w.lat w.lng w.name now (ids 0)).1) (fun n => ids (n + 1)) with
      ⟨hw, hp, hn⟩
    simp only [UIController.replayWaypoints]
    refine ⟨?_, ?_, ?_⟩
    · rw [hw]; simp [Route.addWaypoint]
    · rw [hp]; simp [Route.addWaypoint]
    · rw [hn]; simp [Route.addWaypoint]

/-- A one-point route recorded at t = 1000. -/
def c3Route : Route :=
  { name := "r", startTime := 100,
    points := [{ lat := 0, lng := 0, timestamp := 1000 }], waypoints := [] }

/-- An in-progress session holding `c3Route`, with an active segment
running since t = 1000. -/
def c3Session : UIState :=
  { currentRoute := some c3Route,
    isTrackingActive := true, isPaused := false,
    trackingStartTime := 1000, pausedTimeAccumulated := 0 }

/-- The snapshot `#savePendingRoute` produces for `c3Session` at
t = 2000. -/
def c3Pending : PendingData :=
  { name := "r",
    points := [{ lat := 0, lng := 0, timestamp := 1000 }], waypoints := [],
    startTime := 100, elapsedTime := 1000, savedAt := 2000 }

/-- C3 counterexample: restoring the snapshot saved at t = 2000 at
t = 3000 does not reproduce the same points — the replayed point is
re-stamped with the restoration time (3000), so its content differs
from the saved point (timestamp 1000) — and the elapsed time
immediately after restoration is 0, not the 1000 ms recorded in the
snapshot: the restore path's closing `tracking:started` emission
re-runs the start handler, which zeroes the restored accumulator. -/
theorem c3_roundtrip_counterexample :
    UIController.savePendingRoute c3Session 2000 = some c3Pending ∧
    (UIController.restoreFromPendingRoute c3Pending c3Session 3000
        (fun _ => "w")).currentRoute.map Route.points ≠
      c3Session.currentRoute.map Route.points ∧
    c3Pending.elapsedTime = 1000 ∧
    UIController.updateElapsedTime
      (UIController.restoreFromPendingRoute c3Pending c3Session 3000
        (fun _ => "w")) 3000 = 0 := by
  decide

/-- C3 amended: restoring a saved snapshot reconstructs the points
with the same coordinates in the same order (their timestamps are
re-stamped with the restoration time) and the waypoints with the same
coordinates in the same order with names re-normalized by the
`Waypoint` constructor (ids and timestamps are regenerated); the
snapshot does record the accumulated elapsed value at save time, but
the elapsed time immediately after restoration is 0 — the restore
path's closing `tracking:started` emission re-runs the start handler,
which zeroes the just-restored accumulator. -/
theorem c3_roundtrip_amended (s : UIState) (r : Route) (tSave tRestore : Int)
    (ids : Nat → String) (h : s.currentRoute = some r) :
    ∀ pd, UIController.savePendingRoute s tSave = some pd →
    ∀ r2, (UIController.restoreFromPendingRoute pd s tRestore ids).currentRoute = some r2 →
      r2.points.map (fun p => (p.lat, p.lng)) =
        r.points.map (fun p => (p.lat, p.lng)) ∧
      r2.waypoints.map (fun w => (w.lat, w.lng, w.name)) =
        r.waypoints.map (fun w => (w.lat, w.lng, normalizeWaypointName w.name)) ∧
      r2.name = r.name ∧
      UIController.updateElapsedTime
        (UIController.restoreFromPendingRoute pd s tRestore ids) tRestore = 0 ∧
      (s.isPaused = true ∨ 0 < s.trackingStartTime →
        pd.elapsedTime = UIController.updateElapsedTime s tSave) := by
  intro pd hpd r2 hr2
  have hpd2 : pd =
      { name := r.name
        points := r.points
        waypoints := r.waypoints
        startTime := r.startTime
        elapsedTime := s.pausedTimeAccumulated +
          (if s.isPaused = false ∧ 0 < s.trackingStartTime
           then tSave - s.trackingStartTime else 0)
        savedAt := tSave } := by
    simp [UIController.savePendingRoute, h] at hpd
    exact hpd.symm
  subst hpd2
  have hr2eq : r2 = UIController.replayWaypoints
      (UIController.replayPoints
        { name := r.name, startTime := r.startTime, points := [], waypoints := [] }
        r.points tRestore)
      r.waypoints tRestore ids := by
    simpa [UIController.restoreFromPendingRoute,
      UIController.onTrackingStarted] using hr2.symm
  rcases replayWaypoints_spec r.waypoints
      (UIController.replayPoints
        { name := r.name, startTime := r.startTime, points := [], waypoints := [] }
        r.points tRestore) tRestore ids with ⟨hw, hp, hn⟩
  refine ⟨?_, ?_, ?_, ?_, ?_⟩
  · rw [hr2eq, hp, replayPoints_eq]
    simp
  · rw [hr2eq, hw, replayPoints_eq]
    simp
  · rw [hr2eq, hn, replayPoints_eq]
  · simp [UIController.restoreFromPendingRoute, UIController.onTrackingStarted,
      UIController.updateElapsedTime]
  · intro hcase
    rcases hcase with hpause | hstart
    · simp [UIController.updateElapsedTime, hpause]
    · cases hpause : s.isPaused with
      | true => simp [UIController.updateElapsedTime, hpause]
      | false => simp [UIController.updateElapsedTime, hpause, hstart]

/-- The route rebuilt by restoring `c3Pending` at t = 3000: the same
coordinates, re-stamped at the restoration time. -/
def c3Restored : Route :=
  { name := "r", startTime := 100,
    points := [{ lat := 0, lng := 0, timestamp := 3000 }], waypoints := [] }

/-- Witness for C3 amended at the concrete one-point session: the
restored route keeps the coordinates, the snapshot recorded the
1000 ms accumulated at save time, and the post-restore elapsed time is
0. -/
theorem c3_roundtrip_amended_witness :
    c3Restored.points.map (fun p => (p.lat, p.lng)) =
      c3Route.points.map (fun p => (p.lat, p.lng)) ∧
    c3Restored.waypoints.map (fun w => (w.lat, w.lng, w.name)) =
      c3Route.waypoints.map (fun w => (w.lat, w.lng, normalizeWaypointName w.name)) ∧
    c3Restored.name = c3Route.name ∧
    UIController.updateElapsedTime
      (UIController.restoreFromPendingRoute c3Pending c3Session 3000
        (fun _ => "w")) 3000 = 0 ∧
    c3Pending.elapsedTime = UIController.updateElapsedTime c3Session 2000 := by
  have h := c3_roundtrip_amended c3Session c3Route 2000 3000 (fun _ => "w") rfl
    c3Pending (by decide) c3Restored (by decide)
  exact ⟨h.1, h.2.1, h.2.2.1, h.2.2.2.1, h.2.2.2.2 (Or.inr (by decide))⟩

/-- A snapshot with no points, saved at t = 0. -/
def c4EmptyStale : PendingData :=
  { name := "r", points := [], waypoints := [],
    startTime := 0, elapsedTime := 0, savedAt := 0 }

/-- An idle session with no route. -/
def c4Idle : UIState :=
  { currentRoute := none, isTrackingActive := false, isPaused := false,
    trackingStartTime := 0, pausedTimeAccumulated := 0 }

/-- C4 counterexample: an expired snapshot (age 90 000 000 ms ≥ 24 h)
with no points is not removed from storage by the recovery path — the
age check is only reached when the snapshot has at least one point, so
the slot still holds the snapshot afterwards. -/
theorem c4_stale_snapshot_counterexample :
    UIController.maxPendingAge ≤ 90000000 - c4EmptyStale.savedAt ∧
    (UIController.checkForPendingRoute (some c4EmptyStale) c4Idle 90000000
        (fun _ => "w")).2 = some c4EmptyStale ∧
    (UIController.checkForPendingRoute (some c4EmptyStale) c4Idle 90000000
        (fun _ => "w")).1 = c4Idle := by
  decide

/-- C4 amended: for a snapshot containing at least one point, the
recovery path removes it without restoring when its age is 24 h or
more, and restores it and clears the slot when younger than 24 h; a
snapshot with no points is never restored and is left in storage. -/
theorem c4_staleness_amended (pd : PendingData) (s : UIState) (now : Int)
    (ids : Nat → String) :
    (0 < pd.points.length → UIController.maxPendingAge ≤ now - pd.savedAt →
      UIController.checkForPendingRoute (some pd) s now ids = (s, none)) ∧
    (0 < pd.points.length → now - pd.savedAt < UIController.maxPendingAge →
      UIController.checkForPendingRoute (some pd) s now ids =
        (UIController.restoreFromPendingRoute pd s now ids, none)) ∧
    (pd.points.length = 0 →
      UIController.checkForPendingRoute (some pd) s now ids = (s, some pd)) := by
  refine ⟨fun hpts hage => ?_, fun hpts hage => ?_, fun hpts => ?_⟩ <;>
    simp [UIController.checkForPendingRoute, hpts] <;>
    omega

/-- Witness for C4 amended: a one-point snapshot saved at t = 0 and
checked at t = 90 000 000 (age ≥ 24 h) is dropped: no restore, slot
cleared. -/
theorem c4_staleness_amended_witness :
    UIController.checkForPendingRoute
      (some { name := "r", points := [{ lat := 0, lng := 0, timestamp := 0 }],
              waypoints := [], startTime := 0, elapsedTime := 5, savedAt := 0 })
      c4Idle 90000000 (fun _ => "w") = (c4Idle, none) :=
  (c4_staleness_amended
    { name := "r", points := [{ lat := 0, lng := 0, timestamp := 0 }],
      waypoints := [], startTime := 0, elapsedTime := 5, savedAt := 0 }
    c4Idle 90000000 (fun _ => "w")).1 (by decide) (by decide)

/-- C5: the legacy ingestion gate appends a fix iff no stored point
has identical lat/lng and at least 10 000 ms passed since the last
accepted point, updating the last-accepted time on acceptance; a
rejected fix leaves the path, the point count and the distance
accumulator untouched. -/
theorem c5_legacy_ingestion (st : LegacyRoute.TrackState)
    (fix : LegacyRoute.LatLng) (now : Int) :
    ((¬ ∃ p ∈ st.path, p.lat = fix.lat ∧ p.lng = fix.lng) →
      now - st.lastAddedPointTime ≥ LegacyRoute.TIME_MIN_DIFERENCE →
      (LegacyRoute.onWatchPosition st fix now).path = st.path ++ [fix] ∧
      (LegacyRoute.onWatchPosition st fix now).lastAddedPointTime = now) ∧
    (((∃ p ∈ st.path, p.lat = fix.lat ∧ p.lng = fix.lng) ∨
        now - st.lastAddedPointTime < LegacyRoute.TIME_MIN_DIFERENCE) →
      LegacyRoute.onWatchPosition st fix now = st ∧
      (LegacyRoute.onWatchPosition st fix now).path.length = st.path.length ∧
      (LegacyRoute.onWatchPosition st fix now).distance = st.distance) := by
  constructor
  · intro hnew htime
    simp [LegacyRoute.onWatchPosition, hnew, htime]
  · intro hrej
    have hcond : ¬ ((¬ ∃ p ∈ st.path, p.lat = fix.lat ∧ p.lng = fix.lng) ∧
        now - st.lastAddedPointTime ≥ LegacyRoute.TIME_MIN_DIFERENCE) := by
      rcases hrej with hdup | htime
      · intro hc
        exact hc.1 hdup
      · intro hc
        omega
    unfold LegacyRoute.onWatchPosition
    rw [if_neg hcond]
    exact ⟨rfl, rfl, rfl⟩

/-- Witness for C5: from an empty path with last-accepted time 0, a
fix at t = 10 000 is accepted and stamps the last-accepted time. -/
theorem c5_legacy_ingestion_witness :
    (LegacyRoute.onWatchPosition
        { path := [], lastAddedPointTime := 0, distance := 0 }
        { lat := 1, lng := 2 } 10000).path =
      [] ++ [{ lat := 1, lng := 2 }] ∧
    (LegacyRoute.onWatchPosition
        { path := [], lastAddedPointTime := 0, distance := 0 }
        { lat := 1, lng := 2 } 10000).lastAddedPointTime = 10000 :=
  (c5_legacy_ingestion
    { path := [], lastAddedPointTime := 0, distance := 0 }
    { lat := 1, lng := 2 } 10000).1 (by simp) (by decide)

/-- C6: with a named waypoint requested on an active route, the save
fails with the no-position-available rejection and changes nothing
when the route has no recorded point; with at least one point it
succeeds and the created waypoint carries the last recorded point's
coordinates (its name is the entered name as normalized by the
`Waypoint` constructor: first 50 characters, trimmed). -/
theorem c6_waypoint_requires_position (s : UIState) (r : Route)
    (rawName : String) (now : Int) (freshId : String)
    (hr : s.currentRoute = some r) (hn : jsTrim rawName ≠ "") :
    (r.points = [] →
      UIController.saveWaypoint s rawName now freshId =
        (s, .noPositionAvailable)) ∧
    (∀ lp, r.points.getLast? = some lp →
      (UIController.saveWaypoint s rawName now freshId).2 =
        .saved { id := freshId, lat := lp.lat, lng := lp.lng,
                 name := normalizeWaypointName (jsTrim rawName),
                 timestamp := now } ∧
      (UIController.saveWaypoint s rawName now freshId).1.currentRoute =
        some { r with waypoints := r.waypoints ++
          [{ id := freshId, lat := lp.lat, lng := lp.lng,
             name := normalizeWaypointName (jsTrim rawName),
             timestamp := now }] }) := by
  constructor
  · intro hempty
    simp [UIController.saveWaypoint, hr, hn, Route.getLastPoint, hempty]
  · intro lp hlp
    constructor <;>
      simp [UIController.saveWaypoint, hr, hn, Route.getLastPoint, hlp,
        Route.addWaypoint]

/-- A one-point route at (3, 4), for the C6 witness. -/
def c6Route : Route :=
  { name := "r", startTime := 0,
    points := [{ lat := 3, lng := 4, timestamp := 9 }], waypoints := [] }

/-- The session holding `c6Route` while tracking. -/
def c6State : UIState :=
  { currentRoute := some c6Route,
    isTrackingActive := true, isPaused := false,
    trackingStartTime := 0, pausedTimeAccumulated := 0 }

/-- Witness for C6 on the one-point route: saving the waypoint "Cima"
succeeds and places it at the last point's coordinates (3, 4). -/
theorem c6_waypoint_requires_position_witness :
    (UIController.saveWaypoint c6State "Cima" 50 "id1").2 =
      .saved { id := "id1", lat := 3, lng := 4,
               name := normalizeWaypointName (jsTrim "Cima"), timestamp := 50 } ∧
    (UIController.saveWaypoint c6State "Cima" 50 "id1").1.currentRoute =
      some { c6Route with waypoints := c6Route.waypoints ++
        [{ id := "id1", lat := 3, lng := 4,
           name := normalizeWaypointName (jsTrim "Cima"), timestamp := 50 }] } :=
  (c6_waypoint_requires_position c6State c6Route "Cima" 50 "id1" rfl
      (by decide)).2
    { lat := 3, lng := 4, timestamp := 9 } rfl

/-- Running the callback list distributes over concatenation: both the
collected outputs and the caught-error log are the concatenation of
the two halves' results, in order. -/
theorem runHandlers_append {α β : Type} (l1 l2 : List (EventBus.Handler α β))
    (p : α) :
    EventBus.runHandlers (l1 ++ l2) p =
      ((EventBus.runHandlers l1 p).1 ++ (EventBus.runHandlers l2 p).1,
       (EventBus.runHandlers l1 p).2 ++ (EventBus.runHandlers l2 p).2) := by
  induction l1 with
  | nil => simp [EventBus.runHandlers]
  | cons h rest ih =>
    simp only [List.cons_append, EventBus.runHandlers]
    cases h p <;> simp [ih]

/-- C7: emitting on a topic runs the topic's current callbacks in
subscription order (a new subscription runs after all earlier ones); a
callback that throws has its error caught and logged in place while
every remaining callback still runs, and nothing propagates to the
publisher (the emit result carries outputs and an error log, no
exception). -/
theorem c7_emit_error_containment :
    (∀ (α β : Type) (m : EventBus.EventMap α β) (e : String)
        (cb : EventBus.Handler α β) (p : α),
      EventBus.emit (EventBus.subscribe m e cb) e p =
        EventBus.runHandlers (m e ++ [cb]) p) ∧
    (∀ (α β : Type) (pre post : List (EventBus.Handler α β))
        (h : EventBus.Handler α β) (p : α) (err : String),
      h p = Except.error err →
      EventBus.runHandlers (pre ++ h :: post) p =
        ((EventBus.runHandlers pre p).1 ++ (EventBus.runHandlers post p).1,
         (EventBus.runHandlers pre p).2 ++
           err :: (EventBus.runHandlers post p).2)) ∧
    (∀ (α β : Type) (pre post : List (EventBus.Handler α β))
        (h : EventBus.Handler α β) (p : α) (b : β),
      h p = Except.ok b →
      EventBus.runHandlers (pre ++ h :: post) p =
        ((EventBus.runHandlers pre p).1 ++
           b :: (EventBus.runHandlers post p).1,
         (EventBus.runHandlers pre p).2 ++
           (EventBus.runHandlers post p).2)) := by
  refine ⟨fun α β m e cb p => ?_, fun α β pre post h p err herr => ?_,
    fun α β pre post h p b hok => ?_⟩
  · simp [EventBus.emit, EventBus.subscribe]
  · rw [runHandlers_append]
    simp only [EventBus.runHandlers, herr]
  · rw [runHandlers_append]
    simp only [EventBus.runHandlers, hok]

/-- Witness for C7: with one callback before and one after, a throwing
middle callback is logged while both neighbours still produce their
outputs, in order. -/
theorem c7_emit_error_containment_witness :
    EventBus.runHandlers
      ([fun q => Except.ok (q + 1)] ++
        (fun _ => Except.error "boom") :: [fun q => Except.ok (q + 2)])
      (5 : Int) =
      ((EventBus.runHandlers [fun q => Except.ok (q + 1)] (5 : Int)).1 ++
        (EventBus.runHandlers [fun q => Except.ok (q + 2)] (5 : Int)).1,
       (EventBus.runHandlers [fun q => Except.ok (q + 1)] (5 : Int)).2 ++
        "boom" :: (EventBus.runHandlers [fun q => Except.ok (q + 2)] (5 : Int)).2) :=
  c7_emit_error_containment.2.1 Int Int
    [fun q => Except.ok (q + 1)] [fun q => Except.ok (q + 2)]
    (fun _ => Except.error "boom") 5 "boom" rfl

/-- The haversine `a`-term is symmetric in its two coordinates. -/
theorem havTerm_symm (lat1 lng1 lat2 lng2 : ℝ) :
    DistanceCalculator.havTerm lat1 lng1 lat2 lng2 =
      DistanceCalculator.havTerm lat2 lng2 lat1 lng1 := by
  unfold DistanceCalculator.havTerm DistanceCalculator.toRad
  rw [show (lat1 - lat2) * Real.pi / 180 / 2 =
        -((lat2 - lat1) * Real.pi / 180 / 2) by ring,
      show (lng1 - lng2) * Real.pi / 180 / 2 =
        -((lng2 - lng1) * Real.pi / 180 / 2) by ring,
      Real.sin_neg, Real.sin_neg]
  ring

/-- The haversine `a`-term vanishes on identical coordinates. -/
theorem havTerm_self (lat lng : ℝ) :
    DistanceCalculator.havTerm lat lng lat lng = 0 := by
  simp [DistanceCalculator.havTerm, DistanceCalculator.toRad]

/-- C8: the haversine distance is symmetric in its two positions and
is zero on identical coordinates (exactly, over the reals modelling
the JavaScript floats). -/
theorem c8_haversine_symm_and_self :
    (∀ lat1 lng1 lat2 lng2 : ℝ,
      DistanceCalculator.haversine lat1 lng1 lat2 lng2 =
        DistanceCalculator.haversine lat2 lng2 lat1 lng1) ∧
    (∀ lat lng : ℝ, DistanceCalculator.haversine lat lng lat lng = 0) := by
  constructor
  · intro lat1 lng1 lat2 lng2
    unfold DistanceCalculator.haversine
    rw [havTerm_symm]
  · intro lat lng
    unfold DistanceCalculator.haversine
    rw [havTerm_self]
    norm_num [DistanceCalculator.atan2, Real.arctan_zero]

/-- The guarded `totalDistance` coincides with the bare consecutive
sum (which is already 0 on short lists). -/
theorem totalDistance_eq_pairwiseSum (ps : List DistanceCalculator.Position) :
    DistanceCalculator.totalDistance ps = DistanceCalculator.pairwiseSum ps := by
  match ps with
  | [] => simp [DistanceCalculator.totalDistance, DistanceCalculator.pairwiseSum]
  | [a] => simp [DistanceCalculator.totalDistance, DistanceCalculator.pairwiseSum]
  | a :: b :: rest =>
    simp [DistanceCalculator.totalDistance]

/-- The consecutive sum splits at a shared interior point. -/
theorem pairwiseSum_append_cons (xs : List DistanceCalculator.Position)
    (m : DistanceCalculator.Position) (ys : List DistanceCalculator.Position) :
    DistanceCalculator.pairwiseSum (xs ++ m :: ys) =
      DistanceCalculator.pairwiseSum (xs ++ [m]) +
        DistanceCalculator.pairwiseSum (m :: ys) := by
  induction xs with
  | nil => simp [DistanceCalculator.pairwiseSum]
  | cons a tl ih =>
    cases tl with
    | nil => simp [DistanceCalculator.pairwiseSum]
    | cons b tl2 =>
      simp only [List.cons_append, DistanceCalculator.pairwiseSum, List.append_eq]
      simp only [List.cons_append] at ih
      rw [ih]
      ring

/-- C9: `totalDistance` is 0 on sequences of fewer than two points,
equals the sum of the haversine distance over consecutive pairs, and
is additive across concatenation of consecutive sub-paths sharing an
endpoint. (The embedding is a pure function of its input list, so the
input is not mutated by construction.) -/
theorem c9_totalDistance_spec :
    (∀ ps : List DistanceCalculator.Position, ps.length < 2 →
      DistanceCalculator.totalDistance ps = 0) ∧
    (∀ ps : List DistanceCalculator.Position,
      DistanceCalculator.totalDistance ps =
        DistanceCalculator.consecutivePairSum ps) ∧
    (∀ (xs : List DistanceCalculator.Position) (m : DistanceCalculator.Position)
        (ys : List DistanceCalculator.Position),
      DistanceCalculator.totalDistance (xs ++ m :: ys) =
        DistanceCalculator.totalDistance (xs ++ [m]) +
          DistanceCalculator.totalDistance (m :: ys)) := by
  refine ⟨fun ps h => ?_, fun ps => ?_, fun xs m ys => ?_⟩
  · simp [DistanceCalculator.totalDistance, h]
  · rw [totalDistance_eq_pairwiseSum]
    induction ps with
    | nil => simp [DistanceCalculator.pairwiseSum, DistanceCalculator.consecutivePairSum]
    | cons a tl ih =>
      cases tl with
      | nil =>
        simp [DistanceCalculator.pairwiseSum, DistanceCalculator.consecutivePairSum]
      | cons b tl2 =>
        simp only [DistanceCalculator.pairwiseSum, ih,
          DistanceCalculator.consecutivePairSum]
        simp [List.zip_cons_cons]
  · rw [totalDistance_eq_pairwiseSum, totalDistance_eq_pairwiseSum,
      totalDistance_eq_pairwiseSum, pairwiseSum_append_cons]

/-- Witness for C9: the empty path has total distance 0. -/
theorem c9_totalDistance_spec_witness :
    DistanceCalculator.totalDistance [] = 0 :=
  c9_totalDistance_spec.1 [] (by simp)

/-- C10: an accepted point is stamped with the wall-clock time of its
insertion — `addPoint` builds the stored point from the given lat/lng
and `Date.now()`; the timestamp (and accuracy) carried by the incoming
fix is discarded by the location handler; and every point replayed
during snapshot restoration is stamped with the restoration time, so
restored timestamps differ from the originals whenever the originals
predate the restoration. -/
theorem c10_timestamps_are_insertion_time :
    (∀ (r : Route) (lat lng : ℚ) (now : Int),
      (r.addPoint lat lng now).points =
        r.points ++ [{ lat := lat, lng := lng, timestamp := now }]) ∧
    (∀ (s : UIState) (pos : PositionFix) (ts : Option Int) (acc : Option ℚ)
        (now : Int),
      UIController.onLocationUpdate s
        { pos with timestamp := ts, accuracy := acc } now =
        UIController.onLocationUpdate s pos now) ∧
    (∀ (pd : PendingData) (s : UIState) (now : Int) (ids : Nat → String)
        (r2 : Route),
      (UIController.restoreFromPendingRoute pd s now ids).currentRoute = some r2 →
      r2.points.map RoutePoint.timestamp = pd.points.map (fun _ => now)) ∧
    (∀ (pd : PendingData) (s : UIState) (now : Int) (ids : Nat → String)
        (r2 : Route),
      (UIController.restoreFromPendingRoute pd s now ids).currentRoute = some r2 →
      (∀ p ∈ pd.points, p.timestamp < now) →
      ∀ q ∈ r2.points, ∀ p ∈ pd.points, q.timestamp ≠ p.timestamp) := by
  have hrestore : ∀ (pd : PendingData) (s : UIState) (now : Int)
      (ids : Nat → String) (r2 : Route),
      (UIController.restoreFromPendingRoute pd s now ids).currentRoute = some r2 →
      r2.points.map RoutePoint.timestamp = pd.points.map (fun _ => now) := by
    intro pd s now ids r2 hr2
    have hr2eq : r2 = UIController.replayWaypoints
        (UIController.replayPoints
          { name := pd.name, startTime := pd.startTime, points := [], waypoints := [] }
          pd.points now)
        pd.waypoints now ids := by
      simpa [UIController.restoreFromPendingRoute,
        UIController.onTrackingStarted] using hr2.symm
    rcases replayWaypoints_spec pd.waypoints
        (UIController.replayPoints
          { name := pd.name, startTime := pd.startTime, points := [], waypoints := [] }
          pd.points now) now ids with ⟨_, hp, _⟩
    rw [hr2eq, hp, replayPoints_eq]
    simp [Function.comp_def]
  refine ⟨fun r lat lng now => ?_, fun s pos ts acc now => ?_, hrestore,
    fun pd s now ids r2 hr2 hlt q hq p hp => ?_⟩
  · simp [Route.addPoint]
  · simp [UIController.onLocationUpdate]
  · have hts := hrestore pd s now ids r2 hr2
    have hq2 : q.timestamp ∈ r2.points.map RoutePoint.timestamp :=
      List.mem_map_of_mem RoutePoint.timestamp hq
    rw [hts] at hq2
    rcases List.mem_map.mp hq2 with ⟨p0, _, hval⟩
    have := hlt p hp
    omega

/-- Witness for C10's restoration conjunct: restoring the saved
snapshot `c3Pending` (its point stamped at t = 1000) at t = 3000
produces points all stamped at 3000. -/
theorem c10_timestamps_are_insertion_time_witness :
    c3Restored.points.map RoutePoint.timestamp =
      c3Pending.points.map (fun _ => (3000 : Int)) :=
  c10_timestamps_are_insertion_time.2.2.1 c3Pending c3Session 3000
    (fun _ => "w") c3Restored (by decide)
